import Mathlib

/-
Shallow embedding of the five entity classes of the repository
(bank_account.py, book.py, car.py, coffee_maker.py, smartphone.py).

Modelling conventions:
* Python floats are modelled as exact rationals (ℚ); Python ints as ℤ.
* A method that mutates `self` becomes a function `State → args → State × result`.
* A method that raises an exception on invalid input (ValueError) returns
  `Option …`, with `none` for the raise; since every raise in the sources
  happens before any field assignment, a raise leaves the object unchanged.
* `isinstance` type checks are satisfied by construction (arguments are typed).
-/

namespace Oop

/-- Models fixed-point formatting of a number as done by a Python f-string
such as `{x:.2f}`: the value rounded to `prec` decimal digits, printed with
a sign, an integer part, and exactly `prec` fractional digits. -/
def formatFixed (q : ℚ) (prec : ℕ) : String :=
  let n : ℤ := (q * (10 : ℚ) ^ prec + 1/2).floor
  let sign := if n < 0 then "-" else ""
  let m : ℕ := n.natAbs
  let intPart := m / 10 ^ prec
  let fracPart := m % 10 ^ prec
  let fracDigits := toString fracPart
  let fracPadded := String.mk (List.replicate (prec - fracDigits.length) Character.zero) ++ fracDigits
  if prec = 0 then sign ++ toString intPart
  else sign ++ toString intPart ++ "." ++ fracPadded
where
  /-- The digit character 0. -/
  Character.zero : Char := Char.ofNat 48

/-- Models default string conversion of a Python number, as in `f"{distance}"`. -/
def formatNum (q : ℚ) : String := toString q

/-! ## BankAccount (src/bank_account.py) -/

/-- State of `BankAccount`: account number, balance, holder, interest rate,
active flag. -/
structure BankAccount where
  accountNumber : String
  balance : ℚ
  accountHolder : String
  interestRate : ℚ
  isActive : Bool
deriving Repr, DecidableEq

/-- Constructor `BankAccount.__init__`: stores the arguments and sets
`isActive` to `True`. -/
def BankAccount.init (account_number account_holder : String)
    (initial_balance interest_rate : ℚ) : BankAccount :=
  { accountNumber := account_number
    balance := initial_balance
    accountHolder := account_holder
    interestRate := interest_rate
    isActive := true }

/-- Method `BankAccount.deposit`: rejects when the account is closed or the
amount is not positive, otherwise adds the amount to the balance. -/
def BankAccount.deposit (self : BankAccount) (amount : ℚ) : BankAccount × Bool :=
  if !self.isActive then (self, false)
  else if amount ≤ 0 then (self, false)
  else ({ self with balance := self.balance + amount }, true)

/-- Method `BankAccount.withdraw`: rejects when the account is closed, the
amount is not positive, or the amount exceeds the balance; otherwise
subtracts the amount. -/
def BankAccount.withdraw (self : BankAccount) (amount : ℚ) : BankAccount × Bool :=
  if !self.isActive then (self, false)
  else if amount ≤ 0 then (self, false)
  else if amount > self.balance then (self, false)
  else ({ self with balance := self.balance - amount }, true)

/-- Method `BankAccount.calculateInterest`: on an active account adds
`balance * interestRate` to the balance; on a closed account does nothing. -/
def BankAccount.calculateInterest (self : BankAccount) : BankAccount :=
  if !self.isActive then self
  else { self with balance := self.balance + self.balance * self.interestRate }

/-- Method `BankAccount.closeAccount`: sets `isActive` to `False`. -/
def BankAccount.closeAccount (self : BankAccount) : BankAccount :=
  { self with isActive := false }

/-- Method `BankAccount.getBalance`. -/
def BankAccount.getBalance (self : BankAccount) : ℚ := self.balance

/-- One call on a `BankAccount`, for reasoning about call sequences. -/
inductive AccountOp where
  | deposit (amount : ℚ)
  | withdraw (amount : ℚ)
  | calculateInterest
  | closeAccount
deriving Repr, DecidableEq

/-- Applies one `AccountOp` to the state, discarding the returned flag. -/
def BankAccount.applyOp (self : BankAccount) (op : AccountOp) : BankAccount :=
  match op with
  | .deposit a => (self.deposit a).1
  | .withdraw a => (self.withdraw a).1
  | .calculateInterest => self.calculateInterest
  | .closeAccount => self.closeAccount

/-- Applies a sequence of calls left to right. -/
def BankAccount.run (self : BankAccount) (ops : List AccountOp) : BankAccount :=
  ops.foldl BankAccount.applyOp self

/-! ## Book (src/book.py) -/

/-- State of `Book`: title, author, isbn, page count, checked-out flag. -/
structure Book where
  title : String
  author : String
  isbn : String
  pageCount : ℤ
  isCheckedOut : Bool
deriving Repr, DecidableEq

/-- Constructor `Book.__init__`: stores the arguments and sets
`isCheckedOut` to `False`. -/
def Book.init (title author isbn : String) (pageCount : ℤ) : Book :=
  { title := title, author := author, isbn := isbn
    pageCount := pageCount, isCheckedOut := false }

/-- Method `Book.checkOut`: succeeds only when the book is not checked out. -/
def Book.checkOut (self : Book) : Book × Bool :=
  if !self.isCheckedOut then ({ self with isCheckedOut := true }, true)
  else (self, false)

/-- Method `Book.returnBook`: succeeds only when the book is checked out. -/
def Book.returnBook (self : Book) : Book × Bool :=
  if self.isCheckedOut then ({ self with isCheckedOut := false }, true)
  else (self, false)

/-- Method `Book.getSummary`. -/
def Book.getSummary (self : Book) : String :=
  "Title: " ++ self.title ++ ", Author: " ++ self.author ++ ", ISBN: " ++ self.isbn

/-- Method `Book.setPageCount`: raises `ValueError` (modelled by `none`) when
the new count is not a positive integer. -/
def Book.setPageCount (self : Book) (newCount : ℤ) : Option Book :=
  if newCount ≤ 0 then none
  else some { self with pageCount := newCount }

/-- Method `Book.isAvailable`. -/
def Book.isAvailable (self : Book) : Bool := !self.isCheckedOut

/-- Method `Book.__str__`: the formatted summary line, ending with the
availability status. -/
def Book.str (self : Book) : String :=
  let status := if self.isAvailable then "Available" else "Checked Out"
  self.title ++ " by " ++ self.author ++ " (" ++ self.isbn ++ ") - " ++
    toString self.pageCount ++ " pages - " ++ status

/-! ## Car (src/car.py) -/

/-- State of `Car`: make, model, year, color, fuel level, engine flag. -/
structure Car where
  make : String
  model : String
  year : ℤ
  color : String
  fuel_level : ℚ
  is_engine_on : Bool
deriving Repr, DecidableEq

/-- Constructor `Car.__init__`: stores the arguments unchanged; in particular
the fuel level is NOT clamped into the commented range 0.0 to 100.0. -/
def Car.init (make model : String) (year : ℤ) (color : String)
    (fuel_level : ℚ) (is_engine_on : Bool) : Car :=
  { make := make, model := model, year := year, color := color
    fuel_level := fuel_level, is_engine_on := is_engine_on }

/-- Method `Car.start_engine`: turns the engine on when fuel is positive. -/
def Car.start_engine (self : Car) : Car × String :=
  if self.fuel_level > 0 then
    ({ self with is_engine_on := true }, "Engine started successfully.")
  else (self, "Cannot start engine: insufficient fuel.")

/-- Method `Car.stop_engine`. -/
def Car.stop_engine (self : Car) : Car × String :=
  ({ self with is_engine_on := false }, "Engine stopped.")

/-- Method `Car.drive`: consumes 1 percent of fuel per unit distance; when the
fuel does not cover the distance it drives as far as possible, sets the fuel
to 0 and stops the engine. -/
def Car.drive (self : Car) (distance : ℚ) : Car × String :=
  if !self.is_engine_on then
    (self, "Cannot drive: engine is not running. Please start the engine first.")
  else if distance ≤ 0 then
    (self, "Invalid distance. Please enter a positive value.")
  else
    let fuel_consumption := distance * 1
    if self.fuel_level < fuel_consumption then
      let actual_distance := self.fuel_level / 1
      ({ self with fuel_level := 0, is_engine_on := false },
        "Ran out of fuel after driving " ++ formatFixed actual_distance 1 ++
          " units. Engine stopped. Fuel level: " ++ formatFixed 0 1 ++ "%")
    else
      ({ self with fuel_level := self.fuel_level - fuel_consumption },
        "Drove " ++ formatNum distance ++ " units. Remaining fuel: " ++
          formatFixed (self.fuel_level - fuel_consumption) 1 ++ "%")

/-- Method `Car.refuel`: for a positive amount raises the fuel level by the
amount, capped at 100. -/
def Car.refuel (self : Car) (amount : ℚ) : Car × String :=
  if amount ≤ 0 then (self, "Invalid fuel amount. Please enter a positive value.")
  else
    let f := min 100 (self.fuel_level + amount)
    ({ self with fuel_level := f },
      "Refueled. Current fuel level: " ++ formatFixed f 1 ++ "%")

/-- One call on a `Car`, for reasoning about call sequences. -/
inductive CarOp where
  | start_engine
  | stop_engine
  | drive (distance : ℚ)
  | refuel (amount : ℚ)
deriving Repr, DecidableEq

/-- Applies one `CarOp` to the state, discarding the returned message. -/
def Car.applyOp (self : Car) (op : CarOp) : Car :=
  match op with
  | .start_engine => (self.start_engine).1
  | .stop_engine => (self.stop_engine).1
  | .drive d => (self.drive d).1
  | .refuel a => (self.refuel a).1

/-- Applies a sequence of calls left to right. -/
def Car.run (self : Car) (ops : List CarOp) : Car :=
  ops.foldl Car.applyOp self

/-! ## CoffeeMaker (src/coffee_maker.py) -/

/-- One entry of the `CUP_SIZES` table: water in ml, beans in grams. -/
structure CupSpec where
  water : ℕ
  beans : ℕ
deriving Repr, DecidableEq

/-- Class attribute `CoffeeMaker.CUP_SIZES`. -/
def CUP_SIZES : List (String × CupSpec) :=
  [("small", ⟨120, 8⟩), ("medium", ⟨180, 12⟩), ("large", ⟨240, 16⟩)]

/-- Dictionary lookup `CUP_SIZES[size]`; `none` when the size is not a key. -/
def cupLookup (size : String) : Option CupSpec :=
  (CUP_SIZES.find? (fun p => p.1 == size)).map Prod.snd

/-- State of `CoffeeMaker`: brand, water level (liters), beans (grams), power
flag, selected cup size, and the two capacities fixed by the constructor. -/
structure CoffeeMaker where
  brand : String
  waterLevel : ℚ
  coffeeBeans : ℤ
  isOn : Bool
  cupSize : String
  maxWaterCapacity : ℚ
  maxBeansCapacity : ℤ
deriving Repr, DecidableEq

/-- Constructor `CoffeeMaker.__init__`: clamps water and beans to be
non-negative (but NOT below the capacities), starts powered off, falls back to
"medium" for an unknown cup size, and fixes the capacities at 2.0 L / 500 g. -/
def CoffeeMaker.init (brand : String) (waterLevel : ℚ) (coffeeBeans : ℤ)
    (cupSize : String) : CoffeeMaker :=
  { brand := brand
    waterLevel := max 0 waterLevel
    coffeeBeans := max 0 coffeeBeans
    isOn := false
    cupSize := if (cupLookup cupSize).isSome then cupSize else "medium"
    maxWaterCapacity := 2
    maxBeansCapacity := 500 }

/-- Method `CoffeeMaker.turnOn`: succeeds only when currently off. -/
def CoffeeMaker.turnOn (self : CoffeeMaker) : CoffeeMaker × Bool :=
  if !self.isOn then ({ self with isOn := true }, true)
  else (self, false)

/-- Method `CoffeeMaker.turnOff`: succeeds only when currently on. -/
def CoffeeMaker.turnOff (self : CoffeeMaker) : CoffeeMaker × Bool :=
  if self.isOn then ({ self with isOn := false }, true)
  else (self, false)

/-- Result dictionary returned by the CoffeeMaker methods: a success flag and
a message. -/
structure BrewResult where
  success : Bool
  message : String
deriving Repr, DecidableEq

/-- Method `CoffeeMaker.brew`: requires the machine on, a known cup size, and
enough water and beans; on success subtracts the required water (converted
from ml to liters) and beans. -/
def CoffeeMaker.brew (self : CoffeeMaker) : CoffeeMaker × BrewResult :=
  if !self.isOn then (self, ⟨false, "Coffee maker is turned off"⟩)
  else
    match cupLookup self.cupSize with
    | none => (self, ⟨false, "Invalid cup size: " ++ self.cupSize⟩)
    | some spec =>
      let required_water : ℚ := (spec.water : ℚ) / 1000
      let required_beans : ℤ := spec.beans
      if self.waterLevel < required_water then
        (self, ⟨false, "Not enough water. Need " ++ formatFixed required_water 2 ++
          "L, have " ++ formatFixed self.waterLevel 2 ++ "L"⟩)
      else if self.coffeeBeans < required_beans then
        (self, ⟨false, "Not enough coffee beans. Need " ++ toString required_beans ++
          "g, have " ++ toString self.coffeeBeans ++ "g"⟩)
      else
        let w := self.waterLevel - required_water
        let b := self.coffeeBeans - required_beans
        ({ self with waterLevel := w, coffeeBeans := b },
          ⟨true, "Successfully brewed " ++ self.cupSize ++ " coffee! Water: " ++
            formatFixed w 2 ++ "L, Beans: " ++ toString b ++ "g remaining"⟩)

/-- Method `CoffeeMaker.refillWater`: rejects a non-positive amount; when the
addition would overflow the reservoir it fills the reservoir to capacity and
still reports failure; otherwise adds the amount and reports success. -/
def CoffeeMaker.refillWater (self : CoffeeMaker) (amount : ℚ) :
    CoffeeMaker × BrewResult :=
  if amount ≤ 0 then (self, ⟨false, "Water amount must be a positive number"⟩)
  else if self.waterLevel + amount > self.maxWaterCapacity then
    let overflow := (self.waterLevel + amount) - self.maxWaterCapacity
    ({ self with waterLevel := self.maxWaterCapacity },
      ⟨false, "Water tank full. Added " ++ formatFixed (amount - overflow) 2 ++
        "L, " ++ formatFixed overflow 2 ++ "L overflow"⟩)
  else
    ({ self with waterLevel := self.waterLevel + amount },
      ⟨true, "Added " ++ formatFixed amount 2 ++ "L water. Current level: " ++
        formatFixed (self.waterLevel + amount) 2 ++ "L"⟩)

/-- Method `CoffeeMaker.addBeans`: rejects a non-positive amount; truncates
the amount to an integer; when the addition would overflow the storage it
fills the storage to capacity and still reports failure; otherwise adds the
amount and reports success. -/
def CoffeeMaker.addBeans (self : CoffeeMaker) (amount : ℚ) :
    CoffeeMaker × BrewResult :=
  if amount ≤ 0 then (self, ⟨false, "Bean amount must be a positive number"⟩)
  else
    let amt : ℤ := amount.floor
    if self.coffeeBeans + amt > self.maxBeansCapacity then
      let overflow := (self.coffeeBeans + amt) - self.maxBeansCapacity
      ({ self with coffeeBeans := self.maxBeansCapacity },
        ⟨false, "Bean storage full. Added " ++ toString (amt - overflow) ++
          "g, " ++ toString overflow ++ "g overflow"⟩)
    else
      ({ self with coffeeBeans := self.coffeeBeans + amt },
        ⟨true, "Added " ++ toString amt ++ "g coffee beans. Current amount: " ++
          toString (self.coffeeBeans + amt) ++ "g"⟩)

/-- Method `CoffeeMaker.setCupSize`: succeeds only for a key of `CUP_SIZES`. -/
def CoffeeMaker.setCupSize (self : CoffeeMaker) (size : String) :
    CoffeeMaker × Bool :=
  if (cupLookup size).isSome then ({ self with cupSize := size }, true)
  else (self, false)

/-- Method `CoffeeMaker.canBrew`. -/
def CoffeeMaker.canBrew (self : CoffeeMaker) : Bool :=
  if !self.isOn then false
  else
    match cupLookup self.cupSize with
    | none => false
    | some spec =>
      decide ((spec.water : ℚ) / 1000 ≤ self.waterLevel) &&
        decide ((spec.beans : ℤ) ≤ self.coffeeBeans)

/-- Method `CoffeeMaker.__str__`: the formatted summary line with the power
status between the brand and the water level. -/
def CoffeeMaker.str (self : CoffeeMaker) : String :=
  let status := if self.isOn then "ON" else "OFF"
  let can_brew := if self.canBrew then "Ready" else "Not Ready"
  self.brand ++ " Coffee Maker - " ++ status ++ " - Water: " ++
    formatFixed self.waterLevel 2 ++ "L - Beans: " ++ toString self.coffeeBeans ++
    "g - Cup: " ++ self.cupSize ++ " - " ++ can_brew

/-! ## Smartphone (src/smartphone.py) -/

/-- State of `Smartphone`: brand, model, storage, battery level, lock flag,
and the stored PIN (`_correctPin` in the source). -/
structure Smartphone where
  brand : String
  model : String
  storageCapacity : ℤ
  batteryLevel : ℚ
  isLocked : Bool
  correctPin : String
deriving Repr, DecidableEq

/-- Constructor `Smartphone.__init__`: clamps the battery level into 0 to 100,
starts locked, and stores the default PIN "1234". -/
def Smartphone.init (brand model : String) (storageCapacity : ℤ)
    (batteryLevel : ℚ) : Smartphone :=
  { brand := brand
    model := model
    storageCapacity := storageCapacity
    batteryLevel := max 0 (min 100 batteryLevel)
    isLocked := true
    correctPin := "1234" }

/-- Method `Smartphone.unlock`: an omitted PIN (`None`) defaults to "1234";
unlocks exactly when the PIN equals the stored PIN. -/
def Smartphone.unlock (self : Smartphone) (pin : Option String) :
    Smartphone × Bool :=
  let pin := match pin with
    | none => "1234"
    | some p => p
  if pin == self.correctPin then ({ self with isLocked := false }, true)
  else (self, false)

/-- Method `Smartphone.lock`: always locks and returns `True`. -/
def Smartphone.lock (self : Smartphone) : Smartphone × Bool :=
  ({ self with isLocked := true }, true)

/-- Method `Smartphone.charge`: raises `ValueError` (modelled by `none`) on a
negative amount; otherwise raises the battery level by the amount, capped at
100, and returns the new level. -/
def Smartphone.charge (self : Smartphone) (amount : ℚ) :
    Option (Smartphone × ℚ) :=
  if amount < 0 then none
  else
    let b := min 100 (self.batteryLevel + amount)
    some ({ self with batteryLevel := b }, b)

/-- Method `Smartphone.useBattery`: raises `ValueError` (modelled by `none`)
on a negative amount; otherwise lowers the battery level by the amount,
clamped at 0, and returns the new level. -/
def Smartphone.useBattery (self : Smartphone) (amount : ℚ) :
    Option (Smartphone × ℚ) :=
  if amount < 0 then none
  else
    let b := max 0 (self.batteryLevel - amount)
    some ({ self with batteryLevel := b }, b)

/-- Method `Smartphone.getBatteryStatus`. -/
def Smartphone.getBatteryStatus (self : Smartphone) : String :=
  if self.batteryLevel > 80 then "Excellent"
  else if self.batteryLevel > 50 then "Good"
  else if self.batteryLevel > 20 then "Low"
  else if self.batteryLevel > 10 then "Critical"
  else "Very Low"

/-- Method `Smartphone.__str__`: the formatted summary line, ending with the
lock status. -/
def Smartphone.str (self : Smartphone) : String :=
  let lock_status := if self.isLocked then "Locked" else "Unlocked"
  let battery_status := self.getBatteryStatus
  self.brand ++ " " ++ self.model ++ " (" ++ toString self.storageCapacity ++
    "GB) - Battery: " ++ formatNum self.batteryLevel ++ "% (" ++
    battery_status ++ ") - " ++ lock_status

/-- One call on a `Smartphone`, for reasoning about call sequences. -/
inductive PhoneOp where
  | unlock (pin : Option String)
  | lock
  | charge (amount : ℚ)
  | useBattery (amount : ℚ)
deriving Repr, DecidableEq

/-- Applies one `PhoneOp` to the state. A call that raises (`none`) leaves the
object unchanged, since the raise happens before any field assignment. -/
def Smartphone.applyOp (self : Smartphone) (op : PhoneOp) : Smartphone :=
  match op with
  | .unlock pin => (self.unlock pin).1
  | .lock => (self.lock).1
  | .charge a =>
    match self.charge a with
    | none => self
    | some (s, _) => s
  | .useBattery a =>
    match self.useBattery a with
    | none => self
    | some (s, _) => s

/-- Applies a sequence of calls left to right. -/
def Smartphone.run (self : Smartphone) (ops : List PhoneOp) : Smartphone :=
  ops.foldl Smartphone.applyOp self

/-! ## Helper lemmas -/

/-- String concatenation is associative. -/
theorem string_append_assoc (a b c : String) : a ++ b ++ c = a ++ (b ++ c) := by
  apply congrArg String.mk
  simp [String.data_append, List.append_assoc]

/-! ## Claim theorems -/

/-- C5: for every BankAccount whose balance is non-negative before the call,
after any call to withdraw (whether it returns True or False) the balance is
still non-negative. -/
theorem C5_withdraw_keeps_balance_nonneg (a : BankAccount) (amount : ℚ)
    (h : 0 ≤ a.balance) : 0 ≤ ((a.withdraw amount).1).balance := by
  unfold BankAccount.withdraw
  split_ifs <;> simp_all

/-- Witness for C5 at a concrete account and amount. -/
theorem C5_witness :
    0 ≤ (BankAccount.init ("ACC001") ("John Doe") 1000 (1/50)).balance ∧
    0 ≤ (((BankAccount.init ("ACC001") ("John Doe") 1000 (1/50)).withdraw 200).1).balance :=
  ⟨by norm_num [BankAccount.init],
   C5_withdraw_keeps_balance_nonneg _ 200 (by norm_num [BankAccount.init])⟩

/-- C7: a CoffeeMaker that is on, has waterLevel 1.5 L, cupSize "medium"
(0.18 L and 12 g required) and at least 12 g of beans brews successfully,
leaving waterLevel 1.32 L and reducing coffeeBeans by 12. -/
theorem C7_medium_brew_from_one_point_five (cm : CoffeeMaker)
    (hOn : cm.isOn = true) (hW : cm.waterLevel = 3/2)
    (hS : cm.cupSize = "medium") (hB : 12 ≤ cm.coffeeBeans) :
    (cm.brew).2.success = true ∧
    (cm.brew).1.waterLevel = (1.32 : ℚ) ∧
    (cm.brew).1.coffeeBeans = cm.coffeeBeans - 12 := by
  unfold CoffeeMaker.brew
  rw [hS]
  have hcup : cupLookup ("medium") = some ⟨180, 12⟩ := by rfl
  rw [hcup]
  simp only [hOn, hW]
  norm_num [not_lt.mpr hB]

/-- Witness for C7 at a concrete coffee maker. -/
theorem C7_witness :
    ((CoffeeMaker.init ("Keurig") (3/2) 150 ("medium")).turnOn).1.isOn = true ∧
    (((CoffeeMaker.init ("Keurig") (3/2) 150 ("medium")).turnOn).1.brew).2.success = true := by
  have h := C7_medium_brew_from_one_point_five
    (((CoffeeMaker.init ("Keurig") (3/2) 150 ("medium")).turnOn).1)
    (by rfl) (by norm_num [CoffeeMaker.init, CoffeeMaker.turnOn]) (by rfl)
    (by norm_num [CoffeeMaker.init, CoffeeMaker.turnOn])
  exact ⟨by rfl, h.1⟩

/-- C8: a Smartphone with batteryLevel 85, after useBattery(25) then
charge(40), ends at batteryLevel exactly 100 (clamped). -/
theorem C8_use_then_charge_clamps_at_100 (p : Smartphone)
    (h : p.batteryLevel = 85) :
    ∃ p1 r1 p2 r2, p.useBattery 25 = some (p1, r1) ∧
      p1.charge 40 = some (p2, r2) ∧ p2.batteryLevel = 100 := by
  refine ⟨{ p with batteryLevel := 60 }, 60, ?_⟩
  unfold Smartphone.useBattery Smartphone.charge
  rw [h]
  norm_num

/-- Witness for C8 at a concrete smartphone. -/
theorem C8_witness :
    (Smartphone.init ("Apple") ("iPhone 14") 256 85).batteryLevel = 85 ∧
    ∃ p1 r1 p2 r2,
      (Smartphone.init ("Apple") ("iPhone 14") 256 85).useBattery 25 = some (p1, r1) ∧
      p1.charge 40 = some (p2, r2) ∧ p2.batteryLevel = 100 :=
  ⟨by norm_num [Smartphone.init],
   C8_use_then_charge_clamps_at_100 _ (by norm_num [Smartphone.init])⟩

/-- Every smartphone call leaves the stored PIN unchanged. -/
theorem Smartphone.applyOp_correctPin (s : Smartphone) (op : PhoneOp) :
    (s.applyOp op).correctPin = s.correctPin := by
  cases op with
  | unlock pin =>
    cases pin <;> (simp only [Smartphone.applyOp, Smartphone.unlock]; split_ifs <;> rfl)
  | lock => rfl
  | charge a =>
    simp only [Smartphone.applyOp, Smartphone.charge]
    split_ifs <;> rfl
  | useBattery a =>
    simp only [Smartphone.applyOp, Smartphone.useBattery]
    split_ifs <;> rfl

/-- Every sequence of smartphone calls leaves the stored PIN unchanged. -/
theorem Smartphone.run_correctPin (ops : List PhoneOp) :
    ∀ s : Smartphone, (s.run ops).correctPin = s.correctPin := by
  induction ops with
  | nil => intro s; rfl
  | cons op rest ih =>
    intro s
    simp only [Smartphone.run, List.foldl_cons]
    exact (ih (s.applyOp op)).trans (Smartphone.applyOp_correctPin s op)

/-- C6: each mode-flag operation is idempotent on the state, and the
formatted summary string ends with (or, for the coffee maker, contains) the
status text determined by the resulting flag value. -/
theorem C6_mode_flag_idempotent :
    (∀ b : Book, ((b.checkOut).1.checkOut).1 = (b.checkOut).1) ∧
    (∀ b : Book, ((b.returnBook).1.returnBook).1 = (b.returnBook).1) ∧
    (∀ p : Smartphone, ((p.lock).1.lock).1 = (p.lock).1) ∧
    (∀ (p : Smartphone) (pin : Option String),
      (((p.unlock pin).1).unlock pin).1 = (p.unlock pin).1) ∧
    (∀ cm : CoffeeMaker, ((cm.turnOn).1.turnOn).1 = (cm.turnOn).1) ∧
    (∀ cm : CoffeeMaker, ((cm.turnOff).1.turnOff).1 = (cm.turnOff).1) ∧
    (∀ b : Book, ∃ s, b.str =
      s ++ (if b.isCheckedOut then "Checked Out" else "Available")) ∧
    (∀ p : Smartphone, ∃ s, p.str =
      s ++ (if p.isLocked then "Locked" else "Unlocked")) ∧
    (∀ cm : CoffeeMaker, ∃ s t, cm.str =
      s ++ ((if cm.isOn then "ON" else "OFF") ++ t)) := by
  refine ⟨?_, ?_, ?_, ?_, ?_, ?_, ?_, ?_, ?_⟩
  · intro b
    cases hb : b.isCheckedOut <;> simp [Book.checkOut, hb]
  · intro b
    cases hb : b.isCheckedOut <;> simp [Book.returnBook, hb]
  · intro p
    simp [Smartphone.lock]
  · intro p pin
    cases pin with
    | none =>
      by_cases h : ("1234" == p.correctPin) = true <;>
        simp [Smartphone.unlock, h]
    | some q =>
      by_cases h : (q == p.correctPin) = true <;>
        simp [Smartphone.unlock, h]
  · intro cm
    cases hc : cm.isOn <;> simp [CoffeeMaker.turnOn, hc]
  · intro cm
    cases hc : cm.isOn <;> simp [CoffeeMaker.turnOff, hc]
  · intro b
    refine ⟨b.title ++ " by " ++ b.author ++ " (" ++ b.isbn ++ ") - " ++
      toString b.pageCount ++ " pages - ", ?_⟩
    cases hb : b.isCheckedOut <;> simp [Book.str, Book.isAvailable, hb]
  · intro p
    refine ⟨p.brand ++ " " ++ p.model ++ " (" ++ toString p.storageCapacity ++
      "GB) - Battery: " ++ formatNum p.batteryLevel ++ "% (" ++
      p.getBatteryStatus ++ ") - ", ?_⟩
    cases hp : p.isLocked <;> simp [Smartphone.str, hp]
  · intro cm
    refine ⟨cm.brand ++ " Coffee Maker - ",
      " - Water: " ++ formatFixed cm.waterLevel 2 ++ "L - Beans: " ++
        toString cm.coffeeBeans ++ "g - Cup: " ++ cm.cupSize ++ " - " ++
        (if cm.canBrew then "Ready" else "Not Ready"), ?_⟩
    cases hc : cm.isOn
    · simp only [CoffeeMaker.str]
      rw [hc]
      simp only [if_neg Bool.false_ne_true]
      apply congrArg String.mk
      simp [String.data_append, List.append_assoc]
    · simp only [CoffeeMaker.str]
      rw [hc]
      simp only [if_pos rfl]
      apply congrArg String.mk
      simp [String.data_append, List.append_assoc]

/-- C9: after any sequence of calls on any constructed Smartphone, unlock
with an omitted PIN returns True and leaves the phone unlocked, because the
omitted PIN defaults to "1234", the stored default PIN. -/
theorem C9_unlock_default_always_succeeds (brand model : String)
    (storage : ℤ) (battery : ℚ) (ops : List PhoneOp) :
    (((Smartphone.init brand model storage battery).run ops).unlock none).2 = true ∧
    (((Smartphone.init brand model storage battery).run ops).unlock none).1.isLocked = false := by
  have hpin : ((Smartphone.init brand model storage battery).run ops).correctPin = "1234" :=
    Smartphone.run_correctPin ops (Smartphone.init brand model storage battery)
  simp [Smartphone.unlock, hpin]

/-- The balance and the closed status of an inactive account survive any
single call. -/
theorem BankAccount.applyOp_inactive (s : BankAccount) (op : AccountOp)
    (h : s.isActive = false) :
    (s.applyOp op).isActive = false ∧ (s.applyOp op).balance = s.balance := by
  cases op <;>
    simp [BankAccount.applyOp, BankAccount.deposit, BankAccount.withdraw,
      BankAccount.calculateInterest, BankAccount.closeAccount, h]

/-- The balance and the closed status of an inactive account survive any
sequence of calls. -/
theorem BankAccount.run_inactive (ops : List AccountOp) :
    ∀ s : BankAccount, s.isActive = false →
      (s.run ops).isActive = false ∧ (s.run ops).balance = s.balance := by
  induction ops with
  | nil => intro s h; exact ⟨h, rfl⟩
  | cons op rest ih =>
    intro s h
    simp only [BankAccount.run, List.foldl_cons]
    have hstep := BankAccount.applyOp_inactive s op h
    have htail := ih (s.applyOp op) hstep.1
    exact ⟨htail.1, htail.2.trans hstep.2⟩

/-- C10: closing an account is irreversible and freezing: after closeAccount,
any sequence of further calls leaves isActive False and the balance unchanged,
and deposit and withdraw on the resulting account return False. -/
theorem C10_closed_account_frozen (a : BankAccount) (ops : List AccountOp)
    (amount : ℚ) :
    ((a.closeAccount).run ops).isActive = false ∧
    ((a.closeAccount).run ops).balance = a.balance ∧
    (((a.closeAccount).run ops).deposit amount).2 = false ∧
    (((a.closeAccount).run ops).withdraw amount).2 = false := by
  have h := BankAccount.run_inactive ops (a.closeAccount) rfl
  refine ⟨h.1, h.2, ?_, ?_⟩
  · simp [BankAccount.deposit, h.1]
  · simp [BankAccount.withdraw, h.1]

/-- One smartphone call keeps the battery level inside 0 to 100. -/
theorem Smartphone.applyOp_battery_range (s : Smartphone) (op : PhoneOp)
    (h0 : 0 ≤ s.batteryLevel) (h1 : s.batteryLevel ≤ 100) :
    0 ≤ (s.applyOp op).batteryLevel ∧ (s.applyOp op).batteryLevel ≤ 100 := by
  cases op with
  | unlock pin =>
    cases pin <;>
      (simp only [Smartphone.applyOp, Smartphone.unlock]
       split_ifs <;> exact ⟨h0, h1⟩)
  | lock => exact ⟨h0, h1⟩
  | charge a =>
    simp only [Smartphone.applyOp, Smartphone.charge]
    split_ifs with h
    · exact ⟨h0, h1⟩
    · push_neg at h
      exact ⟨le_min (by norm_num) (by linarith), min_le_left _ _⟩
  | useBattery a =>
    simp only [Smartphone.applyOp, Smartphone.useBattery]
    split_ifs with h
    · exact ⟨h0, h1⟩
    · push_neg at h
      exact ⟨le_max_left _ _, max_le (by norm_num) (by linarith)⟩

/-- Any sequence of smartphone calls keeps the battery level inside 0 to
100. -/
theorem Smartphone.run_battery_range (ops : List PhoneOp) :
    ∀ s : Smartphone, 0 ≤ s.batteryLevel → s.batteryLevel ≤ 100 →
      0 ≤ (s.run ops).batteryLevel ∧ (s.run ops).batteryLevel ≤ 100 := by
  induction ops with
  | nil => intro s h0 h1; exact ⟨h0, h1⟩
  | cons op rest ih =>
    intro s h0 h1
    simp only [Smartphone.run, List.foldl_cons]
    have hstep := Smartphone.applyOp_battery_range s op h0 h1
    exact ih (s.applyOp op) hstep.1 hstep.2

/-- One car call keeps the fuel level inside 0 to 100. -/
theorem Car.applyOp_fuel_range (c : Car) (op : CarOp)
    (h0 : 0 ≤ c.fuel_level) (h1 : c.fuel_level ≤ 100) :
    0 ≤ (c.applyOp op).fuel_level ∧ (c.applyOp op).fuel_level ≤ 100 := by
  cases op with
  | start_engine =>
    simp only [Car.applyOp, Car.start_engine]
    split_ifs <;> exact ⟨h0, h1⟩
  | stop_engine => exact ⟨h0, h1⟩
  | drive d =>
    simp only [Car.applyOp, Car.drive]
    split_ifs with he hd hf
    · exact ⟨h0, h1⟩
    · exact ⟨h0, h1⟩
    · exact ⟨le_refl 0, by norm_num⟩
    · push_neg at hd hf
      exact ⟨by simp only; linarith, by simp only; linarith⟩
  | refuel a =>
    simp only [Car.applyOp, Car.refuel]
    split_ifs with h
    · exact ⟨h0, h1⟩
    · push_neg at h
      exact ⟨le_min (by norm_num) (by linarith), min_le_left _ _⟩

/-- Any sequence of car calls keeps the fuel level inside 0 to 100. -/
theorem Car.run_fuel_range (ops : List CarOp) :
    ∀ c : Car, 0 ≤ c.fuel_level → c.fuel_level ≤ 100 →
      0 ≤ (c.run ops).fuel_level ∧ (c.run ops).fuel_level ≤ 100 := by
  induction ops with
  | nil => intro c h0 h1; exact ⟨h0, h1⟩
  | cons op rest ih =>
    intro c h0 h1
    simp only [Car.run, List.foldl_cons]
    have hstep := Car.applyOp_fuel_range c op h0 h1
    exact ih (c.applyOp op) hstep.1 hstep.2

/-- Counterexample to C4 as stated: the Car constructor does not clamp the
fuel level, so the constructor argument 150 already puts fuel_level outside
0.0 to 100.0 with no method call at all. -/
theorem C4_counterexample :
    100 < ((Car.init ("Toyota") ("Camry") 2023 ("Blue") 150 false).run []).fuel_level := by
  norm_num [Car.init, Car.run]

/-- C4 amended: a Smartphone's batteryLevel stays within 0 to 100 for every
constructor argument and every call sequence; a Car's fuel_level stays within
0.0 to 100.0 for every call sequence provided it starts within that range
(the Car constructor itself does not clamp it). -/
theorem C4_amended_range_invariants :
    (∀ (brand model : String) (storage : ℤ) (battery : ℚ) (ops : List PhoneOp),
      0 ≤ ((Smartphone.init brand model storage battery).run ops).batteryLevel ∧
      ((Smartphone.init brand model storage battery).run ops).batteryLevel ≤ 100) ∧
    (∀ c : Car, 0 ≤ c.fuel_level → c.fuel_level ≤ 100 →
      ∀ ops : List CarOp,
        0 ≤ (c.run ops).fuel_level ∧ (c.run ops).fuel_level ≤ 100) := by
  constructor
  · intro brand model storage battery ops
    apply Smartphone.run_battery_range
    · exact le_max_left _ _
    · exact max_le (by norm_num) (min_le_left _ _)
  · intro c h0 h1 ops
    exact Car.run_fuel_range ops c h0 h1

/-- Witness for the amended C4 at a concrete car and call sequence. -/
theorem C4_witness :
    (0 ≤ (Car.init ("Toyota") ("Camry") 2023 ("Blue") 100 false).fuel_level ∧
      (Car.init ("Toyota") ("Camry") 2023 ("Blue") 100 false).fuel_level ≤ 100) ∧
    (0 ≤ ((Car.init ("Toyota") ("Camry") 2023 ("Blue") 100 false).run
        [CarOp.start_engine, CarOp.drive 25, CarOp.drive 30, CarOp.refuel 20]).fuel_level ∧
      ((Car.init ("Toyota") ("Camry") 2023 ("Blue") 100 false).run
        [CarOp.start_engine, CarOp.drive 25, CarOp.drive 30, CarOp.refuel 20]).fuel_level ≤ 100) :=
  ⟨⟨by norm_num [Car.init], by norm_num [Car.init]⟩,
   C4_amended_range_invariants.2 _ (by norm_num [Car.init]) (by norm_num [Car.init]) _⟩

/-- Counterexample to C1 as stated: a car with 10% fuel and the engine on,
asked to drive 20 units (which needs 20% fuel), is not rejected with its
state unchanged — drive consumes the remaining fuel, so the fuel level
changes from 10 to 0. -/
theorem C1_counterexample :
    (Car.init ("Toyota") ("Camry") 2023 ("Blue") 10 true).fuel_level < 20 * 1 ∧
    ((Car.init ("Toyota") ("Camry") 2023 ("Blue") 10 true).drive 20).1.fuel_level ≠
      (Car.init ("Toyota") ("Camry") 2023 ("Blue") 10 true).fuel_level := by
  refine ⟨by norm_num [Car.init], ?_⟩
  norm_num [Car.init, Car.drive]

/-- C1 amended: the tracked quantity never becomes negative for any of the
four operations; BankAccount.withdraw and CoffeeMaker.brew reject an
insufficient request and leave the state unchanged; Car.drive on
insufficient fuel instead drives as far as possible, sets the fuel to 0 and
stops the engine; Smartphone.useBattery clamps the battery at 0 instead of
rejecting. -/
theorem C1_amended_withdraw_usage :
    (∀ (a : BankAccount) (x : ℚ), 0 ≤ a.balance → 0 ≤ ((a.withdraw x).1).balance) ∧
    (∀ (a : BankAccount) (x : ℚ), a.balance < x → a.withdraw x = (a, false)) ∧
    (∀ cm : CoffeeMaker, 0 ≤ cm.waterLevel → 0 ≤ (cm.brew).1.waterLevel) ∧
    (∀ cm : CoffeeMaker, 0 ≤ cm.coffeeBeans → 0 ≤ (cm.brew).1.coffeeBeans) ∧
    (∀ (cm : CoffeeMaker) (spec : CupSpec), cupLookup cm.cupSize = some spec →
      (cm.waterLevel < (spec.water : ℚ) / 1000 ∨ cm.coffeeBeans < (spec.beans : ℤ)) →
      (cm.brew).1 = cm ∧ (cm.brew).2.success = false) ∧
    (∀ (c : Car) (d : ℚ), 0 ≤ c.fuel_level → 0 ≤ ((c.drive d).1).fuel_level) ∧
    (∀ (c : Car) (d : ℚ), c.is_engine_on = true → 0 < d → c.fuel_level < d * 1 →
      ((c.drive d).1).fuel_level = 0 ∧ ((c.drive d).1).is_engine_on = false) ∧
    (∀ (p : Smartphone) (x : ℚ) (s : Smartphone) (r : ℚ),
      p.useBattery x = some (s, r) → 0 ≤ s.batteryLevel) ∧
    (∀ (p : Smartphone) (x : ℚ), 0 ≤ x → p.batteryLevel < x →
      p.useBattery x = some ({ p with batteryLevel := 0 }, 0)) := by
  refine ⟨?_, ?_, ?_, ?_, ?_, ?_, ?_, ?_, ?_⟩
  · intro a x h
    unfold BankAccount.withdraw
    split_ifs <;> simp_all
  · intro a x h
    unfold BankAccount.withdraw
    split_ifs <;> rfl
  · intro cm h
    simp only [CoffeeMaker.brew]
    split
    · exact h
    · split
      next => exact h
      next spec heq =>
        split_ifs with hw hb
        · exact h
        · exact h
        · push_neg at hw
          show (0 : ℚ) ≤ cm.waterLevel - (spec.water : ℚ) / 1000
          have hq : (0 : ℚ) ≤ (spec.water : ℚ) / 1000 := by positivity
          linarith
  · intro cm h
    simp only [CoffeeMaker.brew]
    split
    · exact h
    · split
      next => exact h
      next spec heq =>
        split_ifs with hw hb
        · exact h
        · exact h
        · push_neg at hb
          show (0 : ℤ) ≤ cm.coffeeBeans - (spec.beans : ℤ)
          omega
  · intro cm spec hcup hins
    simp only [CoffeeMaker.brew]
    split
    · exact ⟨rfl, rfl⟩
    · split
      next => exact ⟨rfl, rfl⟩
      next spec' heq =>
        rw [hcup] at heq
        obtain rfl : spec = spec' := Option.some.inj heq
        split_ifs with hw hb
        · exact ⟨rfl, rfl⟩
        · exact ⟨rfl, rfl⟩
        · exfalso
          rcases hins with hh | hh
          · exact hw hh
          · exact hb hh
  · intro c d h
    simp only [Car.drive]
    split_ifs with he hd hf
    · exact h
    · exact h
    · show (0 : ℚ) ≤ (0 : ℚ)
      exact le_refl 0
    · push_neg at hf
      show (0 : ℚ) ≤ c.fuel_level - d * 1
      linarith
  · intro c d hon hd hf
    simp only [Car.drive]
    rw [hon]
    simp only [Bool.not_true]
    rw [if_neg Bool.false_ne_true, if_neg (not_le.mpr hd), if_pos hf]
    exact ⟨rfl, rfl⟩
  · intro p x s r h
    simp only [Smartphone.useBattery] at h
    by_cases hx : x < 0
    · rw [if_pos hx] at h
      exact Option.noConfusion h
    · rw [if_neg hx] at h
      simp only [Option.some.injEq, Prod.mk.injEq] at h
      obtain ⟨hs, -⟩ := h
      rw [← hs]
      exact le_max_left _ _
  · intro p x hx hlt
    simp only [Smartphone.useBattery, if_neg (not_lt.mpr hx)]
    rw [max_eq_left (by linarith : p.batteryLevel - x ≤ 0)]

/-- Witness for the amended C1 at concrete inputs for each operation. -/
theorem C1_witness :
    ((BankAccount.init ("A1") ("Ann") 50 0).balance < 80 ∧
      (BankAccount.init ("A1") ("Ann") 50 0).withdraw 80 =
        (BankAccount.init ("A1") ("Ann") 50 0, false)) ∧
    ((Car.init ("T") ("C") 2023 ("Blue") 10 true).is_engine_on = true ∧
      (0 : ℚ) < 20 ∧
      (Car.init ("T") ("C") 2023 ("Blue") 10 true).fuel_level < 20 * 1 ∧
      (((Car.init ("T") ("C") 2023 ("Blue") 10 true).drive 20).1).fuel_level = 0 ∧
      (((Car.init ("T") ("C") 2023 ("Blue") 10 true).drive 20).1).is_engine_on = false) ∧
    ((0 : ℚ) ≤ 150 ∧
      (Smartphone.init ("Apple") ("iPhone 14") 256 85).batteryLevel < 150 ∧
      (Smartphone.init ("Apple") ("iPhone 14") 256 85).useBattery 150 =
        some ({ Smartphone.init ("Apple") ("iPhone 14") 256 85 with batteryLevel := 0 }, 0)) := by
  refine ⟨⟨by norm_num [BankAccount.init], ?_⟩, ⟨rfl, by norm_num, by norm_num [Car.init], ?_⟩, ⟨by norm_num, by norm_num [Smartphone.init], ?_⟩⟩
  · exact C1_amended_withdraw_usage.2.1 _ 80 (by norm_num [BankAccount.init])
  · exact C1_amended_withdraw_usage.2.2.2.2.2.2.1 _ 20 rfl (by norm_num)
      (by norm_num [Car.init])
  · exact C1_amended_withdraw_usage.2.2.2.2.2.2.2.2 _ 150 (by norm_num)
      (by norm_num [Smartphone.init])

/-- Counterexample to C2 as stated: refilling a coffee maker holding 1.5 L
with 1.0 L overflows the 2.0 L reservoir; the call reports failure AND
changes waterLevel from 1.5 to 2.0. -/
theorem C2_counterexample :
    ((CoffeeMaker.init ("Keurig") (3/2) 100 ("medium")).refillWater 1).2.success = false ∧
    ((CoffeeMaker.init ("Keurig") (3/2) 100 ("medium")).refillWater 1).1.waterLevel ≠
      (CoffeeMaker.init ("Keurig") (3/2) 100 ("medium")).waterLevel := by
  constructor
  · norm_num [CoffeeMaker.init, CoffeeMaker.refillWater, max_def]
  · norm_num [CoffeeMaker.init, CoffeeMaker.refillWater, max_def]

/-- C2 amended: every mutator that reports success or failure leaves every
field untouched when it reports failure, with three exceptions forced by the
code: CoffeeMaker.refillWater and CoffeeMaker.addBeans on overflow fill the
reservoir or storage to capacity while reporting failure, and Car.drive on
insufficient fuel consumes the remaining fuel and stops the engine. -/
theorem C2_amended_mutator_failure_contract :
    (∀ (a : BankAccount) (x : ℚ), (a.deposit x).2 = false → (a.deposit x).1 = a) ∧
    (∀ (a : BankAccount) (x : ℚ), (a.withdraw x).2 = false → (a.withdraw x).1 = a) ∧
    (∀ b : Book, (b.checkOut).2 = false → (b.checkOut).1 = b) ∧
    (∀ b : Book, (b.returnBook).2 = false → (b.returnBook).1 = b) ∧
    (∀ c : Car, ¬ 0 < c.fuel_level → (c.start_engine).1 = c) ∧
    (∀ (c : Car) (d : ℚ), c.is_engine_on = false ∨ d ≤ 0 → (c.drive d).1 = c) ∧
    (∀ (c : Car) (d : ℚ), c.is_engine_on = true → 0 < d → c.fuel_level < d * 1 →
      (c.drive d).1 = { c with fuel_level := 0, is_engine_on := false }) ∧
    (∀ (c : Car) (x : ℚ), x ≤ 0 → (c.refuel x).1 = c) ∧
    (∀ cm : CoffeeMaker, (cm.turnOn).2 = false → (cm.turnOn).1 = cm) ∧
    (∀ cm : CoffeeMaker, (cm.turnOff).2 = false → (cm.turnOff).1 = cm) ∧
    (∀ cm : CoffeeMaker, (cm.brew).2.success = false → (cm.brew).1 = cm) ∧
    (∀ (cm : CoffeeMaker) (x : ℚ), (cm.refillWater x).2.success = false →
      (cm.refillWater x).1 = cm ∨
        (cm.refillWater x).1 = { cm with waterLevel := cm.maxWaterCapacity }) ∧
    (∀ (cm : CoffeeMaker) (x : ℚ), (cm.addBeans x).2.success = false →
      (cm.addBeans x).1 = cm ∨
        (cm.addBeans x).1 = { cm with coffeeBeans := cm.maxBeansCapacity }) ∧
    (∀ (cm : CoffeeMaker) (size : String), (cm.setCupSize size).2 = false →
      (cm.setCupSize size).1 = cm) ∧
    (∀ (p : Smartphone) (pin : Option String), (p.unlock pin).2 = false →
      (p.unlock pin).1 = p) := by
  refine ⟨?_, ?_, ?_, ?_, ?_, ?_, ?_, ?_, ?_, ?_, ?_, ?_, ?_, ?_, ?_⟩
  · intro a x
    simp only [BankAccount.deposit]
    split_ifs <;> simp
  · intro a x
    simp only [BankAccount.withdraw]
    split_ifs <;> simp
  · intro b
    simp only [Book.checkOut]
    split_ifs <;> simp
  · intro b
    simp only [Book.returnBook]
    split_ifs <;> simp
  · intro c h
    simp only [Car.start_engine]
    rw [if_neg h]
  · intro c d h
    rcases h with h | h
    · simp [Car.drive, h]
    · cases he : c.is_engine_on
      · simp [Car.drive, he]
      · simp only [Car.drive, he, Bool.not_true]
        rw [if_neg Bool.false_ne_true, if_pos h]
  · intro c d hon hd hf
    simp only [Car.drive]
    rw [hon]
    simp only [Bool.not_true]
    rw [if_neg Bool.false_ne_true, if_neg (not_le.mpr hd), if_pos hf]
  · intro c x h
    simp only [Car.refuel]
    rw [if_pos h]
  · intro cm
    simp only [CoffeeMaker.turnOn]
    split_ifs <;> simp
  · intro cm
    simp only [CoffeeMaker.turnOff]
    split_ifs <;> simp
  · intro cm
    simp only [CoffeeMaker.brew]
    split
    · simp
    · split
      next => simp
      next spec heq => split_ifs <;> simp
  · intro cm x
    simp only [CoffeeMaker.refillWater]
    split_ifs <;> simp
  · intro cm x
    simp only [CoffeeMaker.addBeans]
    split_ifs <;> simp
  · intro cm size
    simp only [CoffeeMaker.setCupSize]
    split_ifs <;> simp
  · intro p pin
    cases pin <;>
      (simp only [Smartphone.unlock]
       split_ifs <;> simp)

/-- Witness for the amended C2 at concrete inputs for a rejecting mutator, an
overflowing refill, and an out-of-fuel drive. -/
theorem C2_witness :
    (((BankAccount.init ("A1") ("Ann") 50 0).withdraw 80).2 = false ∧
      ((BankAccount.init ("A1") ("Ann") 50 0).withdraw 80).1 =
        BankAccount.init ("A1") ("Ann") 50 0) ∧
    (((CoffeeMaker.init ("Keurig") (3/2) 100 ("medium")).refillWater 1).2.success = false ∧
      (((CoffeeMaker.init ("Keurig") (3/2) 100 ("medium")).refillWater 1).1 =
          CoffeeMaker.init ("Keurig") (3/2) 100 ("medium") ∨
        ((CoffeeMaker.init ("Keurig") (3/2) 100 ("medium")).refillWater 1).1 =
          { CoffeeMaker.init ("Keurig") (3/2) 100 ("medium") with
              waterLevel := (CoffeeMaker.init ("Keurig") (3/2) 100 ("medium")).maxWaterCapacity })) ∧
    ((Car.init ("T") ("C") 2023 ("Blue") 10 true).is_engine_on = true ∧
      (0 : ℚ) < 20 ∧
      (Car.init ("T") ("C") 2023 ("Blue") 10 true).fuel_level < 20 * 1 ∧
      ((Car.init ("T") ("C") 2023 ("Blue") 10 true).drive 20).1 =
        { Car.init ("T") ("C") 2023 ("Blue") 10 true with
            fuel_level := 0, is_engine_on := false }) := by
  refine ⟨⟨by decide, ?_⟩,
    ⟨by norm_num [CoffeeMaker.init, CoffeeMaker.refillWater, max_def], ?_⟩,
    ⟨rfl, by norm_num, by norm_num [Car.init], ?_⟩⟩
  · exact C2_amended_mutator_failure_contract.2.1 _ 80 (by decide)
  · exact C2_amended_mutator_failure_contract.2.2.2.2.2.2.2.2.2.2.2.1 _ 1
      (by norm_num [CoffeeMaker.init, CoffeeMaker.refillWater, max_def])
  · exact C2_amended_mutator_failure_contract.2.2.2.2.2.2.1 _ 20 rfl (by norm_num)
      (by norm_num [Car.init])

/-- Counterexample to C3 as stated: the CoffeeMaker constructor accepts a
water level above the 2.0 L capacity (it only clamps below 0), and then
refillWater DECREASES the tracked quantity from 3 to 2. -/
theorem C3_counterexample :
    ((CoffeeMaker.init ("K") 3 100 ("medium")).refillWater (1/2)).1.waterLevel <
      (CoffeeMaker.init ("K") 3 100 ("medium")).waterLevel := by
  norm_num [CoffeeMaker.init, CoffeeMaker.refillWater, max_def]

/-- C3 amended: provided the tracked quantity does not already exceed its
defined maximum before the call (the CoffeeMaker and Car constructors do not
clamp above the maximum, so such states are constructible), every
deposit/charge/refill-type operation never decreases the quantity and leaves
it at most the maximum; BankAccount.deposit, whose balance has no defined
maximum, never decreases the balance for any input. -/
theorem C3_amended_deposit_refill_clamped :
    (∀ (a : BankAccount) (x : ℚ), a.balance ≤ ((a.deposit x).1).balance) ∧
    (∀ (p : Smartphone) (x : ℚ) (s : Smartphone) (r : ℚ), p.batteryLevel ≤ 100 →
      p.charge x = some (s, r) →
      p.batteryLevel ≤ s.batteryLevel ∧ s.batteryLevel ≤ 100) ∧
    (∀ (c : Car) (x : ℚ), c.fuel_level ≤ 100 →
      c.fuel_level ≤ ((c.refuel x).1).fuel_level ∧
      ((c.refuel x).1).fuel_level ≤ 100) ∧
    (∀ (cm : CoffeeMaker) (x : ℚ), cm.waterLevel ≤ cm.maxWaterCapacity →
      cm.waterLevel ≤ ((cm.refillWater x).1).waterLevel ∧
      ((cm.refillWater x).1).waterLevel ≤ cm.maxWaterCapacity) ∧
    (∀ (cm : CoffeeMaker) (x : ℚ), cm.coffeeBeans ≤ cm.maxBeansCapacity →
      cm.coffeeBeans ≤ ((cm.addBeans x).1).coffeeBeans ∧
      ((cm.addBeans x).1).coffeeBeans ≤ cm.maxBeansCapacity) := by
  refine ⟨?_, ?_, ?_, ?_, ?_⟩
  · intro a x
    simp only [BankAccount.deposit]
    split_ifs with h1 h2
    · exact le_refl _
    · exact le_refl _
    · push_neg at h2
      show a.balance ≤ a.balance + x
      linarith
  · intro p x s r h100 h
    simp only [Smartphone.charge] at h
    by_cases hx : x < 0
    · rw [if_pos hx] at h
      exact Option.noConfusion h
    · rw [if_neg hx] at h
      push_neg at hx
      simp only [Option.some.injEq, Prod.mk.injEq] at h
      obtain ⟨hs, -⟩ := h
      rw [← hs]
      constructor
      · show p.batteryLevel ≤ min 100 (p.batteryLevel + x)
        exact le_min h100 (by linarith)
      · show min 100 (p.batteryLevel + x) ≤ 100
        exact min_le_left _ _
  · intro c x h100
    simp only [Car.refuel]
    split_ifs with h1
    · exact ⟨le_refl _, h100⟩
    · push_neg at h1
      constructor
      · show c.fuel_level ≤ min 100 (c.fuel_level + x)
        exact le_min h100 (by linarith)
      · show min 100 (c.fuel_level + x) ≤ 100
        exact min_le_left _ _
  · intro cm x h
    simp only [CoffeeMaker.refillWater]
    split_ifs with h1 h2
    · exact ⟨le_refl _, h⟩
    · exact ⟨h, le_refl _⟩
    · push_neg at h1 h2
      constructor
      · show cm.waterLevel ≤ cm.waterLevel + x
        linarith
      · exact h2
  · intro cm x h
    simp only [CoffeeMaker.addBeans]
    split_ifs with h1 h2
    · exact ⟨le_refl _, h⟩
    · exact ⟨h, le_refl _⟩
    · push_neg at h1 h2
      have hfl : (0 : ℤ) ≤ x.floor := by
        rw [Rat.le_floor]
        push_cast
        linarith
      constructor
      · show cm.coffeeBeans ≤ cm.coffeeBeans + x.floor
        linarith
      · exact h2

/-- Witness for the amended C3 at concrete inputs for each operation. -/
theorem C3_witness :
    ((Smartphone.init ("Apple") ("iPhone 14") 256 85).batteryLevel ≤ 100 ∧
      (Smartphone.init ("Apple") ("iPhone 14") 256 85).charge 40 =
        some ({ Smartphone.init ("Apple") ("iPhone 14") 256 85 with
          batteryLevel := 100 }, 100) ∧
      ({ Smartphone.init ("Apple") ("iPhone 14") 256 85 with
          batteryLevel := 100 } : Smartphone).batteryLevel ≤ (100 : ℚ)) ∧
    ((Car.init ("T") ("C") 2023 ("Blue") 75 false).fuel_level ≤ 100 ∧
      (Car.init ("T") ("C") 2023 ("Blue") 75 false).fuel_level ≤
        (((Car.init ("T") ("C") 2023 ("Blue") 75 false).refuel 20).1).fuel_level ∧
      (((Car.init ("T") ("C") 2023 ("Blue") 75 false).refuel 20).1).fuel_level ≤ 100) ∧
    ((CoffeeMaker.init ("K") 1 100 ("medium")).coffeeBeans ≤
        (CoffeeMaker.init ("K") 1 100 ("medium")).maxBeansCapacity ∧
      (CoffeeMaker.init ("K") 1 100 ("medium")).coffeeBeans ≤
        (((CoffeeMaker.init ("K") 1 100 ("medium")).addBeans 100).1).coffeeBeans ∧
      (((CoffeeMaker.init ("K") 1 100 ("medium")).addBeans 100).1).coffeeBeans ≤
        (CoffeeMaker.init ("K") 1 100 ("medium")).maxBeansCapacity) := by
  have hphone := C3_amended_deposit_refill_clamped.2.1
    (Smartphone.init ("Apple") ("iPhone 14") 256 85) 40
    ({ Smartphone.init ("Apple") ("iPhone 14") 256 85 with batteryLevel := 100 }) 100
    (by norm_num [Smartphone.init, max_def, min_def])
    (by norm_num [Smartphone.init, Smartphone.charge, max_def, min_def])
  have hcar := C3_amended_deposit_refill_clamped.2.2.1
    (Car.init ("T") ("C") 2023 ("Blue") 75 false) 20 (by norm_num [Car.init])
  have hbeans := C3_amended_deposit_refill_clamped.2.2.2.2
    (CoffeeMaker.init ("K") 1 100 ("medium")) 100
    (by norm_num [CoffeeMaker.init, max_def])
  exact ⟨⟨by norm_num [Smartphone.init, max_def, min_def],
      by norm_num [Smartphone.init, Smartphone.charge, max_def, min_def],
      hphone.2⟩,
    ⟨by norm_num [Car.init], hcar.1, hcar.2⟩,
    ⟨by norm_num [CoffeeMaker.init, max_def], hbeans.1, hbeans.2⟩⟩

end Oop
